import Mathlib

/-!
Shallow embedding of the RSDiX-CLIP evaluation driver (`eval_clipcap.py`) and
the properties of its specification.

The repository's own code is orchestration: argument validation, a
per-sample evaluation loop, metrics accumulation, and file export.  External
library calls (CLIP preprocessing, caption generation, metric scoring,
dataset assembly) are repository code that lives outside `eval_clipcap.py`;
they are modelled as explicit function parameters gathered in an `Env`
record, and the parts whose behaviour the spec describes are modelled from
the spec (marked in their doc comments).
-/

namespace RSDiX

/-- A dataset sample as assembled by `get_splits_for_evaluation`
(spec §3: image, list of reference captions, filename).  The image tensor is
abstracted to a `Nat` identifier. -/
structure Sample where
  image : Nat
  rawCaptions : List String
  filename : String
deriving DecidableEq

/-- An exact rational value `num / den`, kept unnormalized (all values the
driver builds have a positive denominator).  Metric values are real numbers
in the source (Python floats); exact fractions model them with
floating-point representation effects outside the embedding. -/
structure Frac where
  num : Int
  den : Int
deriving DecidableEq

/-- The fraction `n / 1`. -/
def Frac.ofNat (n : Nat) : Frac := ⟨n, 1⟩

/-- Fraction addition. -/
def Frac.add (a b : Frac) : Frac := ⟨a.num * b.den + b.num * a.den, a.den * b.den⟩

/-- Fraction subtraction. -/
def Frac.sub (a b : Frac) : Frac := ⟨a.num * b.den - b.num * a.den, a.den * b.den⟩

/-- Fraction multiplication. -/
def Frac.mul (a b : Frac) : Frac := ⟨a.num * b.num, a.den * b.den⟩

/-- Fraction division. -/
def Frac.div (a b : Frac) : Frac := ⟨a.num * b.den, a.den * b.num⟩

instance : Add Frac := ⟨Frac.add⟩
instance : Sub Frac := ⟨Frac.sub⟩
instance : Mul Frac := ⟨Frac.mul⟩
instance : Div Frac := ⟨Frac.div⟩

/-- Value equality of fractions (decidable by cross-multiplication). -/
def Frac.eqv (a b : Frac) : Prop := a.num * b.den = b.num * a.den

instance (a b : Frac) : Decidable (a.eqv b) := by unfold Frac.eqv; infer_instance

/-- Whether the value is negative. -/
def Frac.isNeg (a : Frac) : Bool := a.num * a.den < 0

/-- `avg_metrics`: a mapping from metric name to running average value
(`eval_clipcap.py` line 55 / 144), modelled as an association list. -/
abbrev MetricsMap := List (String × Frac)

/-- `{metric: 0.0 for metric in args.metrics}` (lines 55 and 144). -/
def initMetrics (metrics : List String) : MetricsMap :=
  metrics.map (fun m => (m, Frac.ofNat 0))

/-- A record of the caption export/import JSON file: either a per-sample
record `{filename, preds, reference_captions}` (line 78) or the sentinel
record `{model_basename}` (line 127). -/
inductive CaptionRecord where
  | sample (filename : String) (preds : List String) (reference_captions : List String)
  | sentinel (model_basename : String)
deriving DecidableEq

/-- The command-line arguments of the evaluation driver (lines 160-192),
with `None`-able string arguments as `Option String`. -/
structure Args where
  seed : Nat
  scores_dir : String
  scores_file : String
  model_pth : Option String
  model_basename : Option String
  use_beam_search : Bool
  metrics : List String
  no_splits : Bool
  no_evaluation : Bool
  export_captions : Bool
  captions_export_file : String
  captions_import_file : Option String
  annotations_files : List String
  img_dirs : List String
  splits : List String

/-- Split a character list on a separator character (the pieces, in order;
an empty input yields one empty piece). -/
def splitOnCharAux (c : Char) : List Char → List Char → List (List Char)
  | [], acc => [acc.reverse]
  | x :: xs, acc =>
    if x = c then acc.reverse :: splitOnCharAux c xs []
    else splitOnCharAux c xs (x :: acc)

/-- External repository functions used by `eval_clipcap.py` but defined
outside it, passed explicitly.
`getSplits` models `get_splits_for_evaluation`; `preprocess` the
`CLIPProcessor` call; `generate` models `generate_caption`
(`models/clipcap.py`): it is a deterministic function of the global RNG
state, the model, the preprocessed image and the beam-search flag, and it
returns the new RNG state; `loadModel` models
`RSDClipCap.load_from_checkpoint`; `seedRng` models `seed_everything`,
which replaces the global RNG state by a function of the seed alone;
`score` and `meteorFails` are the pure per-sample metric scorer and the
METEOR-failure predicate used by `compute_captioning_metrics`. -/
structure Env where
  getSplits : List String → List String → List String → Bool → List Sample
  preprocess : Nat → Nat
  generate : Nat → Nat → Nat → Bool → List String × Nat
  loadModel : String → Nat
  seedRng : Nat → Nat
  score : String → List String → List String → Frac
  meteorFails : List String → List String → Bool

/-- Modelled from the spec: `compute_captioning_metrics`
(`evaluation/utils.py`, not under src/).  Pure function of the predictions
and reference captions (spec §8): for each requested metric the running
average is updated with the sample's score, with the averaging denominator
adjusted by `no_meteor_count`; when the METEOR score cannot be computed for
this sample, the METEOR entry is left unchanged. -/
def compute_captioning_metrics (env : Env) (preds reference_captions : List String)
    (avg_metrics : MetricsMap) (i no_meteor_count : Nat) : MetricsMap :=
  avg_metrics.map (fun p =>
    if p.1 == "METEOR" && env.meteorFails preds reference_captions then p
    else (p.1, (p.2 * (Frac.ofNat i - Frac.ofNat no_meteor_count)
                  + env.score p.1 preds reference_captions) /
               (Frac.ofNat i - Frac.ofNat no_meteor_count + Frac.ofNat 1)))

/-! ## String formatting for the scores file -/

/-- One decimal digit as a character. -/
def digitChar : Nat → Char
  | 0 => '0' | 1 => '1' | 2 => '2' | 3 => '3' | 4 => '4'
  | 5 => '5' | 6 => '6' | 7 => '7' | 8 => '8' | _ => '9'

/-- Decimal digits of `n`, most significant first (fuel-based recursion). -/
def natDigitsAux : Nat → Nat → List Char → List Char
  | 0, _, acc => acc
  | fuel + 1, n, acc =>
    if n < 10 then digitChar n :: acc
    else natDigitsAux fuel (n / 10) (digitChar (n % 10) :: acc)

/-- Decimal rendering of a natural number. -/
def natStr (n : Nat) : String := String.mk (natDigitsAux (n + 1) n [])

/-- Three zero-padded decimal digits (for a value `< 1000`). -/
def pad3 (n : Nat) : String :=
  String.mk [digitChar (n / 100), digitChar (n / 10 % 10), digitChar (n % 10)]

/-- The magnitude of a fraction rounded (half away from zero) to the
nearest thousandth, in thousandths. -/
def Frac.round3 (a : Frac) : Nat :=
  (2000 * a.num.natAbs + a.den.natAbs) / (2 * a.den.natAbs)

/-- Python's `"{:.3f}".format(value)`, on exact rationals: the value
rounded to three decimal places (binary floating-point representation
effects and the tie-rounding direction are outside the embedding). -/
def format3f (q : Frac) : String :=
  let m := q.round3
  (if q.isNeg then "-" else "") ++ natStr (m / 1000) ++ "." ++ pad3 (m % 1000)

/-- `metrics_str` accumulation of `export_metrics` (lines 17-20):
`metrics_str += "{:s}\t{:.3f}\t".format(metric, value)`. -/
def metricsStr (avg_metrics : MetricsMap) : String :=
  avg_metrics.foldl (fun acc p => acc ++ (p.1 ++ "\t" ++ format3f p.2 ++ "\t")) ""

/-- The line written to the scores file (line 29):
`"{:s}\t{:s}\n".format(model_basename, metrics_str)`. -/
def scoreLine (model_basename : String) (avg_metrics : MetricsMap) : String :=
  model_basename ++ "\t" ++ metricsStr avg_metrics ++ "\n"

/-! ## Filesystem model -/

/-- Look up a key in an association list (first match). -/
def getEntry {β : Type} : List (String × β) → String → Option β
  | [], _ => none
  | (q, d) :: rest, p => if q = p then some d else getEntry rest p

/-- Set a key in an association list, replacing the first match or
appending. -/
def setEntry {β : Type} : List (String × β) → String → β → List (String × β)
  | [], p, v => [(p, v)]
  | (q, d) :: rest, p, v => if q = p then (p, v) :: rest else (q, d) :: setEntry rest p v

/-- The file-system state visible to the driver: the set of directories,
the text files (scores files) and the JSON caption files (their parsed
content, serialization being external). -/
structure FS where
  dirs : List String
  files : List (String × String)
  jsonFiles : List (String × List CaptionRecord)
deriving DecidableEq

/-- Text-file content at a path. -/
def FS.read (fs : FS) (p : String) : Option String := getEntry fs.files p

/-- JSON caption file content at a path. -/
def FS.jsonRead (fs : FS) (p : String) : Option (List CaptionRecord) :=
  getEntry fs.jsonFiles p

/-- `json.dump(captions, export_file)` under `open(..., "w")` (lines 129-130). -/
def FS.jsonWrite (fs : FS) (p : String) (d : List CaptionRecord) : FS :=
  { fs with jsonFiles := setEntry fs.jsonFiles p d }

/-- `os.path.join` for a directory and a relative file name. -/
def joinPath (a b : String) : String := a ++ "/" ++ b

/-- `export_metrics` (lines 16-29): render the averaged metrics, create the
scores directory when missing (`os.makedirs`, lines 22-23), then write the
scores line, in mode `"w"` when the scores file does not exist and `"a"`
(append) when it does (lines 26-29). -/
def export_metrics (fs : FS) (avg_metrics : MetricsMap)
    (scores_dir scores_file model_basename : String) : FS :=
  let fs1 := if scores_dir ∈ fs.dirs then fs else { fs with dirs := scores_dir :: fs.dirs }
  let path := joinPath scores_dir scores_file
  let line := scoreLine model_basename avg_metrics
  match getEntry fs1.files path with
  | none => { fs1 with files := setEntry fs1.files path line }
  | some c => { fs1 with files := setEntry fs1.files path (c ++ line) }

/-! ## Python sequence primitives -/

/-- Python list read `xs[i]` with negative-index wrap-around;
`none` is an `IndexError`. -/
def pyGetItem {α : Type} (xs : List α) (i : Int) : Option α :=
  let n : Int := xs.length
  let j := if i < 0 then i + n else i
  if 0 ≤ j ∧ j < n then xs.get? j.toNat else none

/-- Python list assignment `xs[i] = v` with negative-index wrap-around;
`none` is an `IndexError` (in particular on any index into an empty list). -/
def pySetItem {α : Type} (xs : List α) (i : Int) (v : α) : Option (List α) :=
  let n : Int := xs.length
  let j := if i < 0 then i + n else i
  if 0 ≤ j ∧ j < n then some (xs.set j.toNat v) else none

/-- Python `s.endswith(t)`: `t` is a suffix of `s`. -/
def strEndsWith (s suffix : String) : Bool :=
  suffix.data == s.data.drop (s.data.length - suffix.data.length)

/-- Modelled from the spec: `get_model_basename` (`evaluation/utils.py`, not
under src/) derives the model's basename from its checkpoint path: the last
path component with its extension removed. -/
def get_model_basename (pth : String) : String :=
  let parts := splitOnCharAux '/' pth.data []
  let base := parts.getLastD []
  String.mk ((splitOnCharAux '.' base []).headD [])

/-! ## The evaluation loop (`eval_model`, lines 32-83) -/

/-- The dataset assembled at line 53:
`get_splits_for_evaluation(args.annotations_files, args.img_dirs, args.splits,
not args.no_splits)`. -/
def runDataset (env : Env) (args : Args) : List Sample :=
  env.getSplits args.annotations_files args.img_dirs args.splits (!args.no_splits)

/-- The body of the `for i in progress_bar` loop of `eval_model`
(lines 62-81), iterated over the remaining samples with `i` the running
index.  The loop state is the metrics map `avg_metrics`, the counter
`no_meteor_count` (initialised at line 56 and never reassigned in the loop),
the collected `captions` list, and the global RNG state threaded through
`generate_caption`.  The final component is a ghost trace recording the
value of `no_meteor_count` passed to `compute_captioning_metrics` at each
iteration. -/
def evalLoop (env : Env) (model : Nat) (beam noEval doExport : Bool) :
    List Sample → Nat → MetricsMap → Nat → List CaptionRecord → Nat → List Nat →
    List CaptionRecord × MetricsMap × Nat × List Nat
  | [], _, avg, _, caps, rng, tr => (caps, avg, rng, tr)
  | s :: rest, i, avg, nmc, caps, rng, tr =>
    let pr := env.generate rng model (env.preprocess s.image) beam
    let avg2 := if noEval then avg
                else compute_captioning_metrics env pr.1 s.rawCaptions avg i nmc
    let caps2 := if doExport then caps ++ [CaptionRecord.sample s.filename pr.1 s.rawCaptions]
                 else caps
    evalLoop env model beam noEval doExport rest (i + 1) avg2 nmc caps2 pr.2 (tr ++ [nmc])

/-- `eval_model` (lines 32-83): `seed_everything(args.seed)` replaces the
ambient global RNG state `rng0` (which is therefore unused), the evaluation
splits are assembled, and the loop runs from index 0 with all metrics at 0.0,
`no_meteor_count = 0` and no collected captions.  Returns the collected
captions, the averaged metrics, the final RNG state, and the ghost
`no_meteor_count` trace. -/
def eval_model (env : Env) (model : Nat) (args : Args) (rng0 : Nat) :
    List CaptionRecord × MetricsMap × Nat × List Nat :=
  let rng := env.seedRng args.seed
  let ds := runDataset env args
  evalLoop env model args.use_beam_search args.no_evaluation args.export_captions
    ds 0 (initMetrics args.metrics) 0 [] rng []

/-! ## Specification-level description of the generated data -/

/-- The `(filename, preds, reference_captions)` triples produced by the
evaluation loop, in dataset order, with the RNG state threaded through
caption generation. -/
def genPairs (env : Env) (model : Nat) (beam : Bool) :
    List Sample → Nat → List (String × List String × List String)
  | [], _ => []
  | s :: rest, rng =>
    let pr := env.generate rng model (env.preprocess s.image) beam
    (s.filename, pr.1, s.rawCaptions) :: genPairs env model beam rest pr.2

/-- The per-sample caption record of a generated triple. -/
def toSampleRec (t : String × List String × List String) : CaptionRecord :=
  CaptionRecord.sample t.1 t.2.1 t.2.2

/-- The triples generated by a fresh-evaluation run with arguments `args`
and checkpoint path `p`. -/
def runPairs (env : Env) (args : Args) (p : String) :
    List (String × List String × List String) :=
  genPairs env (env.loadModel p) args.use_beam_search (runDataset env args)
    (env.seedRng args.seed)

/-- The per-sample caption records of a fresh-evaluation run, in dataset
order. -/
def sampleRecords (env : Env) (args : Args) (p : String) : List CaptionRecord :=
  (runPairs env args p).map toSampleRec

/-- Folding the metric update over generated triples with running index and
the counter fixed at 0 (the value `no_meteor_count` keeps in both loops). -/
def metricsFold (env : Env) :
    MetricsMap → Nat → List (String × List String × List String) → MetricsMap
  | avg, _, [] => avg
  | avg, i, t :: rest =>
    metricsFold env (compute_captioning_metrics env t.2.1 t.2.2 avg i 0) (i + 1) rest

/-! ## The driver (`main`, lines 86-157) -/

/-- The configuration errors `main` can raise, and the index error of the
sentinel installation. -/
inductive MainError where
  | missingModelPth
  | splitsMismatch
  | badExportFile
  | exportEvalConflict
  | fileNotFound
  | keyError
  | indexError
deriving DecidableEq

/-- The observable outcome of a `main` run: an uncaught exception (with
the file system at that point and whether a model checkpoint had been
loaded before the raise), or completion with the resulting file system and
a ghost observation of the averaged metrics handed to `export_metrics`
(`none` when no scores line was written). -/
inductive Outcome where
  | err (fs : FS) (modelWasLoaded : Bool) (e : MainError)
  | done (fs : FS) (avgExported : Option MetricsMap)
deriving DecidableEq

/-- The file system of an outcome. -/
def Outcome.fsOf : Outcome → FS
  | .err fs _ _ => fs
  | .done fs _ => fs

/-- The averaged metrics written to a scores file, when any. -/
def Outcome.avgOf : Outcome → Option MetricsMap
  | .err _ _ _ => none
  | .done _ a => a

/-- Whether the run raised before any model checkpoint was loaded. -/
def raisedBeforeModelLoad : Outcome → Bool
  | .err _ false _ => true
  | _ => false

/-- The fresh-evaluation path of `main` (lines 87-134), taken when
`captions_import_file` is `None`: the four validation checks (lines 88-100)
in order, then checkpoint loading (line 115), `model_basename` resolution
(line 117), the evaluation loop, and either the scores-file write with
`get_model_basename(args.model_pth)` (lines 122-124) or the caption export,
which installs the sentinel by assigning `captions[len(captions) - 1]`
(line 127) before dumping the JSON file (lines 129-130).  The singleton
unwrapping of lines 104-111 only changes the container shape handed to
`get_splits_for_evaluation` and is transparent in this model. -/
def mainFresh (env : Env) (fs : FS) (rng0 : Nat) (args : Args) : Outcome :=
  match args.model_pth with
  | none => .err fs false .missingModelPth
  | some model_pth =>
    if !args.no_splits && (args.splits.length != args.annotations_files.length) then
      .err fs false .splitsMismatch
    else if args.export_captions &&
        ((args.captions_export_file.data.length == 0) ||
          !strEndsWith args.captions_export_file ".json") then
      .err fs false .badExportFile
    else if !args.export_captions && args.no_evaluation then
      .err fs false .exportEvalConflict
    else
      let model := env.loadModel model_pth
      let model_basename := args.model_basename.getD (get_model_basename model_pth)
      let res := eval_model env model args rng0
      if !args.export_captions then
        .done (export_metrics fs res.2.1 args.scores_dir args.scores_file
                (get_model_basename model_pth)) (some res.2.1)
      else
        match pySetItem res.1 ((res.1.length : Int) - 1) (.sentinel model_basename) with
        | none => .err fs true .indexError
        | some captions2 => .done (fs.jsonWrite args.captions_export_file captions2) none

/-- The import loop of `main` (lines 147-152): `for i in range(0, len(data) - 1)`
over the records of the imported file, reading `data[i]["preds"]` and
`data[i]["reference_captions"]` (a `KeyError` on a sentinel record) and
updating the metrics; `no_meteor_count` (line 145) is passed but never
reassigned.  The final list is the ghost trace of the counter values
passed. -/
def importLoop (env : Env) :
    List CaptionRecord → Nat → MetricsMap → Nat → List Nat →
    Except Unit (MetricsMap × List Nat)
  | [], _, avg, _, tr => .ok (avg, tr)
  | .sentinel _ :: _, _, _, _, _ => .error ()
  | .sample _ preds refs :: rest, i, avg, nmc, tr =>
    importLoop env rest (i + 1)
      (compute_captioning_metrics env preds refs avg i nmc) nmc (tr ++ [nmc])

/-- The import path of `main` (lines 135-157): load the JSON file, read the
model basename from `data[len(data) - 1]` (an `IndexError` on an empty list,
a `KeyError` when the last record is not the sentinel), recompute the
metrics over the first `len(data) - 1` records, and append the scores line
with the imported basename.  No model checkpoint is ever loaded on this
path. -/
def mainImport (env : Env) (fs : FS) (args : Args) (importFile : String) : Outcome :=
  match fs.jsonRead importFile with
  | none => .err fs false .fileNotFound
  | some data =>
    match pyGetItem data ((data.length : Int) - 1) with
    | none => .err fs false .indexError
    | some (.sample _ _ _) => .err fs false .keyError
    | some (.sentinel b) =>
      match importLoop env data.dropLast 0 (initMetrics args.metrics) 0 [] with
      | .error _ => .err fs false .keyError
      | .ok (avg, _) =>
        .done (export_metrics fs avg args.scores_dir args.scores_file b) (some avg)

/-- `main` (lines 86-157): the fresh-evaluation path when
`captions_import_file` is `None`, the import path otherwise. -/
def main (env : Env) (fs : FS) (rng0 : Nat) (args : Args) : Outcome :=
  match args.captions_import_file with
  | none => mainFresh env fs rng0 args
  | some f => mainImport env fs args f

/-! ## Observations used to state the claims -/

/-- The number of newline characters in a string. -/
def countNl (s : String) : Nat := s.data.count '\n'

/-- The number of samples among the first `i` generated triples whose
METEOR score could not be computed. -/
def meteorFailuresBefore (env : Env)
    (ps : List (String × List String × List String)) (i : Nat) : Nat :=
  ((ps.take i).filter (fun t => env.meteorFails t.2.1 t.2.2)).length

/-! ## Concrete instantiation data -/

/-- A one-sample environment with constant caption generation and a
constant unit score. -/
def envOne : Env := {
  getSplits := fun _ _ _ _ => [⟨0, ["a ref"], "img1.jpg"⟩],
  preprocess := id,
  generate := fun rng _ _ _ => (["a pred"], rng),
  loadModel := fun _ => 0,
  seedRng := fun s => s,
  score := fun _ _ _ => Frac.ofNat 1,
  meteorFails := fun _ _ => false }

/-- A fresh-evaluation argument set with caption export enabled. -/
def argsExport : Args := {
  seed := 42, scores_dir := "eval_results", scores_file := "scores.tsv",
  model_pth := some "ckpt/model.ckpt", model_basename := none,
  use_beam_search := false, metrics := ["ROUGE_L"], no_splits := false,
  no_evaluation := false, export_captions := true,
  captions_export_file := "caps.json", captions_import_file := none,
  annotations_files := ["a.json"], img_dirs := ["imgs"], splits := ["test"] }

/-- The matching import argument set. -/
def argsImport : Args := { argsExport with captions_import_file := some "caps.json" }

/-- The matching direct-evaluation argument set. -/
def argsDirect : Args := { argsExport with export_captions := false }

/-- An empty file system. -/
def fsEmpty : FS := ⟨[], [], []⟩

/-- A two-sample environment on which the METEOR score always fails. -/
def envTwoMeteor : Env := { envOne with
  getSplits := fun _ _ _ _ => [⟨0, ["r0"], "f0"⟩, ⟨1, ["r1"], "f1"⟩],
  meteorFails := fun _ _ => true }

/-- A direct-evaluation argument set requesting only METEOR. -/
def argsMeteor : Args := { argsDirect with metrics := ["METEOR"] }

/-- An environment whose assembled evaluation dataset is empty. -/
def envEmptyDs : Env := { envOne with getSplits := fun _ _ _ _ => [] }

/-- An argument set with two declared splits but one annotation file. -/
def argsMismatch : Args := { argsExport with splits := ["val", "test"] }

/-- An export argument set whose export path does not end in ".json". -/
def argsBadExport : Args := { argsExport with captions_export_file := "caps.txt" }

/-- An argument set that disables both evaluation and export. -/
def argsConflict : Args := { argsDirect with no_evaluation := true }

/-- A file system holding the scores directory and a one-line scores
file. -/
def fsScores : FS :=
  ⟨["eval_results"], [("eval_results/scores.tsv", "older\tBLEU1\t0.500\t\n")], []⟩

/-! ## Association list and Python primitive lemmas -/

theorem getEntry_setEntry {β : Type} (l : List (String × β)) (p : String) (v : β) :
    getEntry (setEntry l p v) p = some v := by
  induction l with
  | nil => simp [getEntry, setEntry]
  | cons hd t ih =>
    obtain ⟨q, d⟩ := hd
    by_cases hq : q = p
    · simp [setEntry, hq, getEntry]
    · simp [setEntry, hq, getEntry, ih]

theorem set_last_eq {α : Type} : ∀ (l : List α) (v : α), l ≠ [] →
    l.set (l.length - 1) v = l.dropLast ++ [v]
  | [], _, h => absurd rfl h
  | [_], _, _ => rfl
  | a :: b :: t, v, _ => by
    have ih := set_last_eq (b :: t) v (by simp)
    simp only [List.length_cons, Nat.add_sub_cancel] at ih ⊢
    simp only [List.set, List.dropLast_cons₂, ih, List.cons_append]

theorem pySetItem_last {α : Type} (l : List α) (v : α) (h : l ≠ []) :
    pySetItem l ((l.length : Int) - 1) v = some (l.dropLast ++ [v]) := by
  have hl : 0 < l.length := List.length_pos.mpr h
  have h1 : ¬ ((l.length : Int) - 1 < 0) := by omega
  have h2 : (0 ≤ (l.length : Int) - 1 ∧ (l.length : Int) - 1 < (l.length : Int)) := by
    constructor <;> omega
  have h3 : ((l.length : Int) - 1).toNat = l.length - 1 := by omega
  simp only [pySetItem, if_neg h1, if_pos h2, h3, set_last_eq l v h]

theorem pyGetItem_concat {α : Type} (l : List α) (x : α) :
    pyGetItem (l ++ [x]) (((l ++ [x]).length : Int) - 1) = some x := by
  have hlen : (l ++ [x]).length = l.length + 1 := by simp
  have h1 : ¬ (((l ++ [x]).length : Int) - 1 < 0) := by omega
  have h2 : (0 ≤ ((l ++ [x]).length : Int) - 1 ∧
      ((l ++ [x]).length : Int) - 1 < ((l ++ [x]).length : Int)) := by
    constructor <;> omega
  have h3 : (((l ++ [x]).length : Int) - 1).toNat = l.length := by omega
  simp only [pyGetItem, if_neg h1, if_pos h2, h3]
  exact List.get?_concat_length l x

theorem strEndsWith_json_len {s : String} (h : strEndsWith s ".json" = true) :
    (s.data.length == 0) = false := by
  unfold strEndsWith at h
  have h2 : ".json".data = s.data.drop (s.data.length - ".json".data.length) :=
    eq_of_beq h
  have h4 := congrArg List.length h2
  rw [List.length_drop] at h4
  have h5 : (".json".data).length = 5 := rfl
  rw [h5] at h4
  have h6 : s.data.length ≠ 0 := by omega
  exact beq_eq_false_iff_ne.mpr h6

theorem map_dropLast_eq {α β : Type} (f : α → β) :
    ∀ l : List α, (l.map f).dropLast = l.dropLast.map f
  | [] => rfl
  | [_] => rfl
  | a :: b :: t => by
    simp only [List.map_cons, List.dropLast_cons₂, ← map_dropLast_eq f (b :: t)]

/-! ## Loop characterisation lemmas -/

theorem genPairs_length (env : Env) (model : Nat) (beam : Bool) :
    ∀ (ds : List Sample) (rng : Nat), (genPairs env model beam ds rng).length = ds.length
  | [], _ => rfl
  | s :: rest, rng => by
    simp only [genPairs, List.length_cons, genPairs_length env model beam rest]

theorem evalLoop_trace (env : Env) (model : Nat) (beam noEval doExport : Bool) :
    ∀ (ds : List Sample) (i : Nat) (avg : MetricsMap) (nmc : Nat)
      (caps : List CaptionRecord) (rng : Nat) (tr : List Nat),
      (evalLoop env model beam noEval doExport ds i avg nmc caps rng tr).2.2.2
        = tr ++ List.replicate ds.length nmc
  | [], _, _, _, _, _, tr => by simp [evalLoop]
  | s :: rest, i, avg, nmc, caps, rng, tr => by
    rw [evalLoop, evalLoop_trace env model beam noEval doExport rest]
    simp [List.replicate_succ]

theorem evalLoop_captions (env : Env) (model : Nat) (beam noEval : Bool) :
    ∀ (ds : List Sample) (i : Nat) (avg : MetricsMap) (nmc : Nat)
      (caps : List CaptionRecord) (rng : Nat) (tr : List Nat),
      (evalLoop env model beam noEval true ds i avg nmc caps rng tr).1
        = caps ++ (genPairs env model beam ds rng).map toSampleRec
  | [], _, _, _, _, _, _ => by simp [evalLoop, genPairs]
  | s :: rest, i, avg, nmc, caps, rng, tr => by
    rw [evalLoop, genPairs, evalLoop_captions env model beam noEval rest]
    simp [toSampleRec]

theorem evalLoop_avg (env : Env) (model : Nat) (beam doExport : Bool) :
    ∀ (ds : List Sample) (i : Nat) (avg : MetricsMap)
      (caps : List CaptionRecord) (rng : Nat) (tr : List Nat),
      (evalLoop env model beam false doExport ds i avg 0 caps rng tr).2.1
        = metricsFold env avg i (genPairs env model beam ds rng)
  | [], _, _, _, _, _ => by simp [evalLoop, genPairs, metricsFold]
  | s :: rest, i, avg, caps, rng, tr => by
    rw [evalLoop, genPairs, evalLoop_avg env model beam doExport rest]
    simp [metricsFold]

theorem importLoop_ok (env : Env) :
    ∀ (ps : List (String × List String × List String)) (i : Nat)
      (avg : MetricsMap) (tr : List Nat),
      importLoop env (ps.map toSampleRec) i avg 0 tr
        = .ok (metricsFold env avg i ps, tr ++ List.replicate ps.length 0)
  | [], _, _, _ => by simp [importLoop, metricsFold]
  | t :: rest, i, avg, tr => by
    rw [List.map_cons, show toSampleRec t = CaptionRecord.sample t.1 t.2.1 t.2.2 from rfl,
      importLoop, importLoop_ok env rest]
    simp [metricsFold, List.replicate_succ]

theorem importLoop_trace (env : Env) :
    ∀ (recs : List CaptionRecord) (i : Nat) (avg : MetricsMap) (tr : List Nat)
      (res : MetricsMap × List Nat),
      importLoop env recs i avg 0 tr = .ok res → res.2 = tr ++ List.replicate recs.length 0
  | [], i, avg, tr, res => by
    intro h
    simp only [importLoop, Except.ok.injEq] at h
    simp [← h, List.replicate]
  | .sentinel _ :: _, i, avg, tr, res => by
    intro h
    exact absurd h (by simp [importLoop])
  | .sample _ preds refs :: rest, i, avg, tr, res => by
    intro h
    rw [importLoop] at h
    have := importLoop_trace env rest (i + 1)
      (compute_captioning_metrics env preds refs avg i 0) (tr ++ [0]) res h
    simp only [this, List.length_cons, List.replicate_succ, List.append_assoc]
    rfl

theorem eval_model_captions (env : Env) (model : Nat) (args : Args) (rng0 : Nat)
    (h : args.export_captions = true) :
    (eval_model env model args rng0).1
      = (genPairs env model args.use_beam_search (runDataset env args)
          (env.seedRng args.seed)).map toSampleRec := by
  unfold eval_model
  rw [h, evalLoop_captions]
  rfl

theorem eval_model_avg (env : Env) (model : Nat) (args : Args) (rng0 : Nat)
    (h : args.no_evaluation = false) :
    (eval_model env model args rng0).2.1
      = metricsFold env (initMetrics args.metrics) 0
          (genPairs env model args.use_beam_search (runDataset env args)
            (env.seedRng args.seed)) := by
  unfold eval_model
  rw [h, evalLoop_avg]

theorem eval_model_trace (env : Env) (model : Nat) (args : Args) (rng0 : Nat) :
    (eval_model env model args rng0).2.2.2
      = List.replicate (runDataset env args).length 0 := by
  unfold eval_model
  rw [evalLoop_trace]
  rfl

/-! ## Newline counting in the scores line -/

theorem digitChar_ne_nl : ∀ d : Nat, (digitChar d == '\n') = false
  | 0 => rfl
  | 1 => rfl
  | 2 => rfl
  | 3 => rfl
  | 4 => rfl
  | 5 => rfl
  | 6 => rfl
  | 7 => rfl
  | 8 => rfl
  | _ + 9 => rfl

theorem natDigitsAux_count (fuel : Nat) :
    ∀ (n : Nat) (acc : List Char),
      (natDigitsAux fuel n acc).count '\n' = acc.count '\n' := by
  induction fuel with
  | zero => intro n acc; rfl
  | succ f ih =>
    intro n acc
    rw [natDigitsAux]
    split
    · rw [List.count_cons]
      simp [digitChar_ne_nl]
    · rw [ih, List.count_cons]
      simp [digitChar_ne_nl]

theorem countNl_append (a b : String) : countNl (a ++ b) = countNl a + countNl b := by
  rcases a with ⟨la⟩
  rcases b with ⟨lb⟩
  simp [countNl, String.append, List.count_append]

theorem countNl_natStr (n : Nat) : countNl (natStr n) = 0 := by
  simp [natStr, countNl, natDigitsAux_count]

theorem countNl_pad3 (n : Nat) : countNl (pad3 n) = 0 := by
  simp [pad3, countNl, List.count_cons, digitChar_ne_nl]

theorem countNl_dash : countNl "-" = 0 := rfl

theorem countNl_format3f (q : Frac) : countNl (format3f q) = 0 := by
  unfold format3f
  rcases hq : q.isNeg <;>
    simp [hq, countNl_append, countNl_natStr, countNl_pad3, countNl_dash] <;>
    rfl

theorem countNl_metricsStr_aux (avg : MetricsMap) :
    ∀ acc : String, (∀ p ∈ avg, countNl p.1 = 0) →
      countNl (avg.foldl (fun acc p => acc ++ (p.1 ++ "\t" ++ format3f p.2 ++ "\t")) acc)
        = countNl acc := by
  induction avg with
  | nil => intro acc _; rfl
  | cons p t ih =>
    intro acc hm
    rw [List.foldl_cons, ih _ (fun q hq => hm q (List.mem_cons_of_mem _ hq))]
    have hp : countNl p.1 = 0 := hm p (List.mem_cons_self _ _)
    simp [countNl_append, hp, countNl_format3f]
    rfl

theorem countNl_metricsStr (avg : MetricsMap) (hm : ∀ p ∈ avg, countNl p.1 = 0) :
    countNl (metricsStr avg) = 0 :=
  countNl_metricsStr_aux avg "" hm

theorem countNl_scoreLine (basename : String) (avg : MetricsMap)
    (hb : countNl basename = 0) (hm : ∀ p ∈ avg, countNl p.1 = 0) :
    countNl (scoreLine basename avg) = 1 := by
  unfold scoreLine
  simp [countNl_append, hb, countNl_metricsStr avg hm]
  rfl

/-! ## The claims -/

/-- C4: for every argument configuration with `captions_import_file=None`,
`no_splits=False` and `len(splits) != len(annotations_files)`, the driver
raises before any model checkpoint is loaded: either the missing-`model_pth`
check (lines 88-90) or the split-count check (lines 92-93) fires, both
before the checkpoint load at line 115. -/
theorem C4_raises_on_splits_mismatch (env : Env) (fs : FS) (rng : Nat) (args : Args)
    (h1 : args.captions_import_file = none)
    (h2 : args.no_splits = false)
    (h3 : args.splits.length ≠ args.annotations_files.length) :
    raisedBeforeModelLoad (main env fs rng args) = true := by
  have e1 : main env fs rng args = mainFresh env fs rng args := by
    unfold main; rw [h1]
  rw [e1]
  unfold mainFresh
  rcases hp : args.model_pth with _ | p
  · rfl
  · have hc : (!args.no_splits &&
        (args.splits.length != args.annotations_files.length)) = true := by
      simp [h2, h3]
    simp [hc, raisedBeforeModelLoad]

/-- Witness for C4 at a concrete argument set with two declared splits and
one annotation file. -/
theorem C4_witness :
    raisedBeforeModelLoad (main envOne fsEmpty 0 argsMismatch) = true :=
  C4_raises_on_splits_mismatch envOne fsEmpty 0 argsMismatch rfl rfl (by decide)

/-- C5: for every argument configuration with `captions_import_file=None`,
`export_captions=True` and a `captions_export_file` that does not end in
".json", the driver raises before any model checkpoint is loaded: one of
the checks at lines 88-97 fires before the load at line 115. -/
theorem C5_raises_on_bad_export_path (env : Env) (fs : FS) (rng : Nat) (args : Args)
    (h1 : args.captions_import_file = none)
    (h2 : args.export_captions = true)
    (h3 : strEndsWith args.captions_export_file ".json" = false) :
    raisedBeforeModelLoad (main env fs rng args) = true := by
  have e1 : main env fs rng args = mainFresh env fs rng args := by
    unfold main; rw [h1]
  rw [e1]
  unfold mainFresh
  rcases hp : args.model_pth with _ | p
  · rfl
  · rcases hc : (!args.no_splits &&
        (args.splits.length != args.annotations_files.length))
    · simp [hc, h2, h3, raisedBeforeModelLoad]
    · simp [hc, raisedBeforeModelLoad]

/-- Witness for C5 at a concrete argument set exporting to "caps.txt". -/
theorem C5_witness :
    raisedBeforeModelLoad (main envOne fsEmpty 0 argsBadExport) = true :=
  C5_raises_on_bad_export_path envOne fsEmpty 0 argsBadExport rfl rfl (by decide)

/-- C6: for every argument configuration with `captions_import_file=None`,
`export_captions=False` and `no_evaluation=True`, the driver raises before
any model checkpoint is loaded: one of the checks at lines 88-100 fires
before the load at line 115. -/
theorem C6_raises_on_export_eval_conflict (env : Env) (fs : FS) (rng : Nat) (args : Args)
    (h1 : args.captions_import_file = none)
    (h2 : args.export_captions = false)
    (h3 : args.no_evaluation = true) :
    raisedBeforeModelLoad (main env fs rng args) = true := by
  have e1 : main env fs rng args = mainFresh env fs rng args := by
    unfold main; rw [h1]
  rw [e1]
  unfold mainFresh
  rcases hp : args.model_pth with _ | p
  · rfl
  · rcases hc : (!args.no_splits &&
        (args.splits.length != args.annotations_files.length))
    · simp [hc, h2, h3, raisedBeforeModelLoad]
    · simp [hc, raisedBeforeModelLoad]

/-- Witness for C6 at a concrete argument set with both evaluation and
export disabled. -/
theorem C6_witness :
    raisedBeforeModelLoad (main envOne fsEmpty 0 argsConflict) = true :=
  C6_raises_on_export_eval_conflict envOne fsEmpty 0 argsConflict rfl rfl rfl

/-- C7: every metrics-export call adds the scores directory if missing and
leaves the directory list unchanged when it already exists, and when the
scores file already exists (with content `c`) the new content is exactly
the old content followed by the scores line, which contains exactly one
newline (its terminator) provided the model basename and the metric names
are newline-free. -/
theorem C7_export_metrics_append (fs : FS) (avg : MetricsMap)
    (dir file basename c : String)
    (hb : countNl basename = 0) (hm : ∀ p ∈ avg, countNl p.1 = 0)
    (hc : fs.read (joinPath dir file) = some c) :
    dir ∈ (export_metrics fs avg dir file basename).dirs
    ∧ (dir ∈ fs.dirs → (export_metrics fs avg dir file basename).dirs = fs.dirs)
    ∧ (export_metrics fs avg dir file basename).read (joinPath dir file)
        = some (c ++ scoreLine basename avg)
    ∧ countNl (scoreLine basename avg) = 1 := by
  have hc2 : getEntry fs.files (joinPath dir file) = some c := hc
  unfold export_metrics
  by_cases hd : dir ∈ fs.dirs
  · rw [if_pos hd]
    simp only [hc2]
    refine ⟨hd, fun _ => ?_, by simp [FS.read, getEntry_setEntry],
      countNl_scoreLine basename avg hb hm⟩
    simp
  · rw [if_neg hd]
    simp only [hc2]
    exact ⟨List.mem_cons_self _ _, fun h => absurd h hd,
      by simp [FS.read, getEntry_setEntry], countNl_scoreLine basename avg hb hm⟩

/-- Witness for C7: a second line is appended to an existing one-line
scores file. -/
theorem C7_witness :
    "eval_results" ∈ (export_metrics fsScores [("BLEU1", Frac.ofNat 1)]
        "eval_results" "scores.tsv" "model").dirs
    ∧ ("eval_results" ∈ fsScores.dirs →
        (export_metrics fsScores [("BLEU1", Frac.ofNat 1)]
          "eval_results" "scores.tsv" "model").dirs = fsScores.dirs)
    ∧ (export_metrics fsScores [("BLEU1", Frac.ofNat 1)]
        "eval_results" "scores.tsv" "model").read (joinPath "eval_results" "scores.tsv")
        = some ("older\tBLEU1\t0.500\t\n" ++ scoreLine "model" [("BLEU1", Frac.ofNat 1)])
    ∧ countNl (scoreLine "model" [("BLEU1", Frac.ofNat 1)]) = 1 :=
  C7_export_metrics_append fsScores [("BLEU1", Frac.ofNat 1)]
    "eval_results" "scores.tsv" "model" "older\tBLEU1\t0.500\t\n"
    (by decide) (by decide) (by decide)

/-- C8: the evaluation loop is a deterministic function of the seed, the
checkpoint and the dataset: `seed_everything(args.seed)` (line 51) replaces
the ambient global RNG state before any generation, so two runs from
arbitrary prior RNG states produce identical collected captions, metrics
and final state.  Caption generation itself is repository code outside
src/, modelled as a deterministic function of the RNG state and its
inputs. -/
theorem C8_eval_deterministic (env : Env) (model : Nat) (args : Args)
    (rng1 rng2 : Nat) :
    eval_model env model args rng1 = eval_model env model args rng2 := rfl

/-- C9: in fresh-evaluation mode with `export_captions=False`, the scores
line is written with `get_model_basename(args.model_pth)` (lines 122-124),
for any value of the resolved `--model_basename` override; in particular
the run's outcome is independent of the override. -/
theorem C9_scores_basename_from_path (env : Env) (fs : FS) (rng : Nat)
    (args : Args) (p : String) (b1 b2 : Option String)
    (h1 : args.captions_import_file = none)
    (h2 : args.model_pth = some p)
    (h3 : (!args.no_splits &&
      (args.splits.length != args.annotations_files.length)) = false)
    (h4 : args.export_captions = false)
    (h5 : args.no_evaluation = false) :
    main env fs rng { args with model_basename := b1 }
      = .done (export_metrics fs (eval_model env (env.loadModel p) args rng).2.1
          args.scores_dir args.scores_file (get_model_basename p))
          (some (eval_model env (env.loadModel p) args rng).2.1)
    ∧ main env fs rng { args with model_basename := b1 }
      = main env fs rng { args with model_basename := b2 } := by
  have key : ∀ b : Option String,
      main env fs rng { args with model_basename := b }
        = .done (export_metrics fs (eval_model env (env.loadModel p) args rng).2.1
            args.scores_dir args.scores_file (get_model_basename p))
            (some (eval_model env (env.loadModel p) args rng).2.1) := by
    intro b
    set argsb : Args := { args with model_basename := b } with hab
    have p1 : argsb.captions_import_file = none := h1
    have pm : argsb.model_pth = some p := h2
    have c1 : (!argsb.no_splits &&
        (argsb.splits.length != argsb.annotations_files.length)) = false := h3
    have hec : argsb.export_captions = false := h4
    have hne : argsb.no_evaluation = false := h5
    have c2 : (argsb.export_captions && ((argsb.captions_export_file.data.length == 0) ||
        !strEndsWith argsb.captions_export_file ".json")) = false := by
      rw [hec]; rfl
    have c3 : (!argsb.export_captions && argsb.no_evaluation) = false := by
      rw [hec, hne]; rfl
    have e1 : main env fs rng argsb = mainFresh env fs rng argsb := by
      unfold main; rw [p1]
    rw [e1]
    unfold mainFresh
    simp only [pm, c1, c2, c3, hec, Bool.not_false, Bool.false_eq_true, if_false,
      ite_false, ite_true, if_true]
    rw [h2, h4]
    rfl
  exact ⟨key b1, (key b1).trans (key b2).symm⟩

/-- Witness for C9: with an override of "override" the scores line still
carries the path-derived basename "model", and the outcome equals the
no-override run. -/
theorem C9_witness :
    main envOne fsEmpty 0 { argsDirect with model_basename := some "override" }
      = .done (export_metrics fsEmpty
          (eval_model envOne (envOne.loadModel "ckpt/model.ckpt") argsDirect 0).2.1
          argsDirect.scores_dir argsDirect.scores_file
          (get_model_basename "ckpt/model.ckpt"))
          (some (eval_model envOne (envOne.loadModel "ckpt/model.ckpt") argsDirect 0).2.1)
    ∧ main envOne fsEmpty 0 { argsDirect with model_basename := some "override" }
      = main envOne fsEmpty 0 { argsDirect with model_basename := none } :=
  C9_scores_basename_from_path envOne fsEmpty 0 argsDirect "ckpt/model.ckpt"
    (some "override") none rfl rfl (by decide) rfl rfl

/-- C10: in fresh-evaluation export mode over an empty assembled dataset,
installing the sentinel record assigns `captions[len(captions) - 1]` on an
empty list (line 127), an `IndexError` raised after the model was loaded
and before any export file is written. -/
theorem C10_empty_dataset_index_error (env : Env) (fs : FS) (rng : Nat)
    (args : Args) (p : String)
    (h1 : args.captions_import_file = none)
    (h2 : args.model_pth = some p)
    (h3 : (!args.no_splits &&
      (args.splits.length != args.annotations_files.length)) = false)
    (h4 : args.export_captions = true)
    (h5 : strEndsWith args.captions_export_file ".json" = true)
    (h6 : runDataset env args = []) :
    main env fs rng args = .err fs true .indexError := by
  have hlen := strEndsWith_json_len h5
  have hcap : (eval_model env (env.loadModel p) args rng).1 = [] := by
    rw [eval_model_captions env (env.loadModel p) args rng h4, h6]
    rfl
  have e1 : main env fs rng args = mainFresh env fs rng args := by
    unfold main; rw [h1]
  rw [e1]
  unfold mainFresh
  simp only [h2, h3, h4, h5, hlen, Bool.not_true, Bool.false_and, Bool.and_false,
    Bool.true_and, Bool.false_or, Bool.or_false, if_false, hcap]
  rfl

/-- Witness for C10: an environment whose dataset loader returns no
samples. -/
theorem C10_witness :
    main envEmptyDs fsEmpty 0 argsExport = .err fsEmpty true .indexError :=
  C10_empty_dataset_index_error envEmptyDs fsEmpty 0 argsExport "ckpt/model.ckpt"
    rfl rfl (by decide) rfl (by decide) rfl

/-- Reading back a JSON caption file just written returns its content. -/
theorem jsonRead_jsonWrite (fs : FS) (f : String) (d : List CaptionRecord) :
    (fs.jsonWrite f d).jsonRead f = some d := by
  simp [FS.jsonWrite, FS.jsonRead, getEntry_setEntry]

/-- On a successful fresh-evaluation export run over a nonempty dataset,
the JSON file written holds the per-sample records with the last one
replaced by the sentinel (line 127 assigns over `captions[len - 1]`). -/
theorem main_export_json (env : Env) (fs : FS) (rng : Nat) (args : Args) (p : String)
    (h1 : args.captions_import_file = none)
    (h2 : args.model_pth = some p)
    (h3 : (!args.no_splits &&
      (args.splits.length != args.annotations_files.length)) = false)
    (h4 : args.export_captions = true)
    (h5 : strEndsWith args.captions_export_file ".json" = true)
    (h6 : runDataset env args ≠ []) :
    main env fs rng args
      = .done (fs.jsonWrite args.captions_export_file
          ((sampleRecords env args p).dropLast
            ++ [CaptionRecord.sentinel (args.model_basename.getD (get_model_basename p))]))
          none := by
  have hlen := strEndsWith_json_len h5
  have hcap : (eval_model env (env.loadModel p) args rng).1 = sampleRecords env args p := by
    rw [eval_model_captions env (env.loadModel p) args rng h4]; rfl
  have hslen : (sampleRecords env args p).length = (runDataset env args).length := by
    simp [sampleRecords, runPairs, genPairs_length]
  have hsne : sampleRecords env args p ≠ [] := by
    intro hnil
    apply h6
    have h0 : (runDataset env args).length = 0 := by rw [← hslen, hnil]; rfl
    exact List.length_eq_zero.mp h0
  have e1 : main env fs rng args = mainFresh env fs rng args := by
    unfold main; rw [h1]
  rw [e1]
  unfold mainFresh
  simp only [h2, h3, h4, h5, hlen, Bool.not_true, Bool.false_and, Bool.and_false,
    Bool.true_and, Bool.false_or, Bool.or_false, Bool.false_eq_true, if_false,
    ite_false, ite_true, if_true, hcap, pySetItem_last _ _ hsne]

/-- On a successful fresh-evaluation scores run (no export), the scores line
is written with the path-derived basename and the metrics are the running
average fold over the generated predictions. -/
theorem main_fresh_scores (env : Env) (fs : FS) (rng : Nat) (args : Args) (p : String)
    (h1 : args.captions_import_file = none)
    (h2 : args.model_pth = some p)
    (h3 : (!args.no_splits &&
      (args.splits.length != args.annotations_files.length)) = false)
    (h4 : args.export_captions = false)
    (h5 : args.no_evaluation = false) :
    main env fs rng args
      = .done (export_metrics fs (metricsFold env (initMetrics args.metrics) 0
            (runPairs env args p)) args.scores_dir args.scores_file (get_model_basename p))
          (some (metricsFold env (initMetrics args.metrics) 0 (runPairs env args p))) := by
  have havg : (eval_model env (env.loadModel p) args rng).2.1
      = metricsFold env (initMetrics args.metrics) 0 (runPairs env args p) := by
    rw [eval_model_avg env (env.loadModel p) args rng h5]; rfl
  have e1 : main env fs rng args = mainFresh env fs rng args := by
    unfold main; rw [h1]
  rw [e1]
  unfold mainFresh
  simp only [h2, h3, h4, h5, Bool.not_false, Bool.false_and, Bool.and_false,
    Bool.true_and, Bool.false_eq_true, if_false, ite_false, ite_true, if_true, havg]

/-- C1 counterexample: on a one-sample run, the exported JSON file holds
only the sentinel record: the single per-sample record was overwritten by
the sentinel assignment at line 127, so the file is not the per-sample
records followed by an additional sentinel. -/
theorem C1_counterexample :
    (main envOne fsEmpty 0 argsExport).fsOf.jsonRead "caps.json"
        = some [CaptionRecord.sentinel "model"]
    ∧ sampleRecords envOne argsExport "ckpt/model.ckpt"
        = [CaptionRecord.sample "img1.jpg" ["a pred"] ["a ref"]]
    ∧ (main envOne fsEmpty 0 argsExport).fsOf.jsonRead "caps.json"
        ≠ some (sampleRecords envOne argsExport "ckpt/model.ckpt"
            ++ [CaptionRecord.sentinel "model"]) := by
  decide

/-- C1 (amended): on a fresh-evaluation export run over N ≥ 1 samples, the
JSON file contains the first N-1 per-sample records in dataset order with
the final position holding the sentinel record: the N-th per-sample record
is replaced by the sentinel, not followed by it. -/
theorem C1_export_replaces_last (env : Env) (fs : FS) (rng : Nat) (args : Args)
    (p : String)
    (h1 : args.captions_import_file = none)
    (h2 : args.model_pth = some p)
    (h3 : (!args.no_splits &&
      (args.splits.length != args.annotations_files.length)) = false)
    (h4 : args.export_captions = true)
    (h5 : strEndsWith args.captions_export_file ".json" = true)
    (h6 : runDataset env args ≠ []) :
    (main env fs rng args).fsOf.jsonRead args.captions_export_file
      = some ((sampleRecords env args p).dropLast
          ++ [CaptionRecord.sentinel (args.model_basename.getD (get_model_basename p))])
    ∧ (sampleRecords env args p).length = (runDataset env args).length := by
  constructor
  · rw [main_export_json env fs rng args p h1 h2 h3 h4 h5 h6]
    simp [Outcome.fsOf, FS.jsonWrite, FS.jsonRead, getEntry_setEntry]
  · simp [sampleRecords, runPairs, genPairs_length]

/-- Witness for C1 (amended) at the one-sample run. -/
theorem C1_witness :
    (main envOne fsEmpty 0 argsExport).fsOf.jsonRead argsExport.captions_export_file
      = some ((sampleRecords envOne argsExport "ckpt/model.ckpt").dropLast
          ++ [CaptionRecord.sentinel (argsExport.model_basename.getD
              (get_model_basename "ckpt/model.ckpt"))])
    ∧ (sampleRecords envOne argsExport "ckpt/model.ckpt").length
        = (runDataset envOne argsExport).length :=
  C1_export_replaces_last envOne fsEmpty 0 argsExport "ckpt/model.ckpt"
    rfl rfl (by decide) rfl (by decide) (by decide)

/-- C2 counterexample: exporting the one-sample run and re-importing the
file yields metric value 0 for ROUGE_L (the only sample's record was
replaced by the sentinel, so the import loop processes no records), while
direct evaluation yields 1; the two averaged dictionaries differ, and the
two ROUGE_L values differ as rational values. -/
theorem C2_counterexample :
    (main envOne (main envOne fsEmpty 0 argsExport).fsOf 0 argsImport).avgOf
        ≠ (main envOne fsEmpty 0 argsDirect).avgOf
    ∧ (main envOne (main envOne fsEmpty 0 argsExport).fsOf 0 argsImport).avgOf
        = some [("ROUGE_L", ⟨0, 1⟩)]
    ∧ (main envOne fsEmpty 0 argsDirect).avgOf = some [("ROUGE_L", ⟨1, 1⟩)]
    ∧ ¬ Frac.eqv ⟨0, 1⟩ ⟨1, 1⟩ := by
  decide

/-- C2 (amended): exporting the captions of N ≥ 1 samples and importing the
file yields the averaged metrics of the fold over the first N-1 samples
only (the last sample's record was replaced by the sentinel at export),
while direct evaluation with `no_evaluation=False` yields the fold over all
N samples; the round-trip preserves the metrics exactly for the samples
that survive the export. -/
theorem C2_roundtrip_drops_last (env : Env) (fs : FS) (rng1 rng2 rng3 : Nat)
    (args importArgs : Args) (p : String)
    (h1 : args.captions_import_file = none)
    (h2 : args.model_pth = some p)
    (h3 : (!args.no_splits &&
      (args.splits.length != args.annotations_files.length)) = false)
    (h4 : args.export_captions = true)
    (h5 : strEndsWith args.captions_export_file ".json" = true)
    (h6 : runDataset env args ≠ [])
    (h7 : args.no_evaluation = false)
    (h8 : importArgs.captions_import_file = some args.captions_export_file)
    (h9 : importArgs.metrics = args.metrics) :
    (main env (main env fs rng1 args).fsOf rng2 importArgs).avgOf
      = some (metricsFold env (initMetrics args.metrics) 0
          ((runPairs env args p).dropLast))
    ∧ (main env fs rng3 { args with export_captions := false }).avgOf
      = some (metricsFold env (initMetrics args.metrics) 0 (runPairs env args p)) := by
  constructor
  · have hmap : (sampleRecords env args p).dropLast
        = ((runPairs env args p).dropLast).map toSampleRec :=
      map_dropLast_eq toSampleRec (runPairs env args p)
    have e2 : main env (main env fs rng1 args).fsOf rng2 importArgs
        = mainImport env (main env fs rng1 args).fsOf importArgs
            args.captions_export_file := by
      unfold main; rw [h8]
    rw [e2, main_export_json env fs rng1 args p h1 h2 h3 h4 h5 h6]
    unfold mainImport
    simp only [Outcome.fsOf, jsonRead_jsonWrite, pyGetItem_concat, List.dropLast_concat,
      hmap, importLoop_ok, h9, Outcome.avgOf]
  · have p1 : ({ args with export_captions := false } : Args).captions_import_file
        = none := h1
    have p2 : ({ args with export_captions := false } : Args).model_pth = some p := h2
    have p3 : (!({ args with export_captions := false } : Args).no_splits &&
        (({ args with export_captions := false } : Args).splits.length !=
          ({ args with export_captions := false } : Args).annotations_files.length))
        = false := h3
    have p5 : ({ args with export_captions := false } : Args).no_evaluation = false := h7
    rw [main_fresh_scores env fs rng3 { args with export_captions := false } p
      p1 p2 p3 rfl p5]
    rfl

/-- Witness for C2 (amended) at the one-sample run. -/
theorem C2_witness :
    (main envOne (main envOne fsEmpty 0 argsExport).fsOf 1 argsImport).avgOf
      = some (metricsFold envOne (initMetrics argsExport.metrics) 0
          ((runPairs envOne argsExport "ckpt/model.ckpt").dropLast))
    ∧ (main envOne fsEmpty 2 { argsExport with export_captions := false }).avgOf
      = some (metricsFold envOne (initMetrics argsExport.metrics) 0
          (runPairs envOne argsExport "ckpt/model.ckpt")) :=
  C2_roundtrip_drops_last envOne fsEmpty 0 1 2 argsExport argsImport "ckpt/model.ckpt"
    rfl rfl (by decide) rfl (by decide) (by decide) rfl rfl rfl

/-- C3 counterexample: on a two-sample run in which METEOR fails on every
sample, the `no_meteor_count` value passed at iteration 1 is still 0,
although one METEOR failure was observed at iteration 0: the counter passed
at iteration i does not reflect the failures of iterations 0..i-1. -/
theorem C3_counterexample :
    ((eval_model envTwoMeteor 0 argsMeteor 0).2.2.2).get? 1
        ≠ some (meteorFailuresBefore envTwoMeteor
            (runPairs envTwoMeteor argsMeteor "ckpt/model.ckpt") 1)
    ∧ ((eval_model envTwoMeteor 0 argsMeteor 0).2.2.2).get? 1 = some 0
    ∧ meteorFailuresBefore envTwoMeteor
        (runPairs envTwoMeteor argsMeteor "ckpt/model.ckpt") 1 = 1 := by
  decide

/-- C3 (amended): in both the fresh-evaluation loop and the import loop,
`no_meteor_count` is initialised to 0 and never reassigned, so the counter
passed to `compute_captioning_metrics` is 0 at every iteration, regardless
of METEOR failures. -/
theorem C3_counter_constant_zero (env : Env) (model : Nat) (args : Args) (rng : Nat)
    (recs : List CaptionRecord) (i : Nat) (avg : MetricsMap)
    (res : MetricsMap × List Nat)
    (h : importLoop env recs i avg 0 [] = .ok res) :
    (eval_model env model args rng).2.2.2
      = List.replicate (runDataset env args).length 0
    ∧ res.2 = List.replicate recs.length 0 := by
  refine ⟨eval_model_trace env model args rng, ?_⟩
  have h2 := importLoop_trace env recs i avg [] res h
  simpa using h2

/-- Witness for C3 (amended): the one-sample fresh run and an import loop
over one sample record. -/
theorem C3_witness :
    (eval_model envOne 0 argsDirect 0).2.2.2
        = List.replicate (runDataset envOne argsDirect).length 0
    ∧ (([("METEOR", (⟨1, 1⟩ : Frac))], ([0] : List Nat)) : MetricsMap × List Nat).2
        = List.replicate ([CaptionRecord.sample "f" ["p"] ["r"]] : List CaptionRecord).length 0 :=
  C3_counter_constant_zero envOne 0 argsDirect 0
    [CaptionRecord.sample "f" ["p"] ["r"]] 0 [("METEOR", Frac.ofNat 0)]
    ([("METEOR", ⟨1, 1⟩)], [0]) rfl

end RSDiX
